import Mathlib

/-!
Verification of the write-path core of the snap Cassandra publisher plugin.

The development shallowly embeds the plugin's client and publisher logic:

* `convert` — the value normalizer (client.go, `convert`);
* `worker`, `tagWorker`, `saveMetrics` — the row mapper and batch loop
  (client.go, `worker` / `tagWorker` / `saveMetrics`);
* `getValidTagIndex` — the tag index selector (client.go);
* `getInstance` / `getSession` / `addSslOptions` — the once-per-process
  session singleton (client.go);
* `Publish` / `Close` / `getSslOptions` / `getValueForKey` — the publisher
  entry points (cassandra.go, the revision-3 primary document; the older
  revision-2 `getSslOptions`, which validated certificate paths, is embedded
  separately as `getSslOptionsV2`).

Go's dynamically typed metric payload is embedded as the inductive `GoData`;
floating point payloads are carried as their exact rational values, and the
Go conversion `float64(v)` on integers is embedded as IEEE-754 binary64
round-to-nearest-even (`roundIntToF64`), which is the identity exactly on
integers of magnitude at most 2 ^ 53 (plus larger representable ones).
Store I/O is embedded as a write log plus an oracle assigning an optional
error message to each issued insert, in issue order.
-/

namespace SnapCassandra

/-! ## IEEE-754 binary64 rounding of integers (semantics of Go float64(v)) -/

/-- Floor of the base-2 logarithm, computed with explicit fuel so that the
kernel can evaluate it on concrete inputs. -/
def log2fuel : Nat → Nat → Nat
  | 0, _ => 0
  | f + 1, n => if n ≤ 1 then 0 else log2fuel f (n / 2) + 1

/-- Floor of the base-2 logarithm of a positive natural number. -/
def floorLog2 (n : Nat) : Nat := log2fuel n n

/-- Round a natural number to the nearest IEEE-754 binary64 value
(round half to even).  Values with at most 53 significant bits are exact;
above that the result is rounded to a multiple of the unit in the last
place of its binade. -/
def roundNatToF64 (n : Nat) : Nat :=
  let k := floorLog2 n
  if k ≤ 52 then n
  else
    let ulp := 2 ^ (k - 52)
    let q := n / ulp
    let r := n % ulp
    if 2 * r < ulp then q * ulp
    else if ulp < 2 * r then (q + 1) * ulp
    else if q % 2 = 0 then q * ulp else (q + 1) * ulp

/-- Result of the Go conversion float64(v) on an integer v, as an integer
(64-bit integers never round to a value outside the binade below 2 ^ 64,
so the result is always finite and integral). -/
def roundIntToF64 (v : Int) : Int :=
  if v < 0 then - (roundNatToF64 v.natAbs : Int) else (roundNatToF64 v.natAbs : Int)

/-- The exact rational value produced by the Go conversion float64(v). -/
def goIntToF64 (v : Int) : ℚ := ((roundIntToF64 v : Int) : ℚ)

/-! ## The value normalizer (client.go, convert) -/

/-- Dynamic payload of a metric record (the Go interface value passed to
convert), one constructor per type case of the source's type switch.
Integer payloads carry their mathematical value; float payloads carry the
exact rational value of the floating point datum; `d_other` stands for any
other shape (map, slice, struct, nil, ...) and carries the rendering that
the %v format verb would produce for it. -/
inductive GoData where
  | d_float64 (q : ℚ)
  | d_float32 (q : ℚ)
  | d_int16 (v : Int)
  | d_int32 (v : Int)
  | d_int64 (v : Int)
  | d_int8 (v : Int)
  | d_uint64 (v : Int)
  | d_uint32 (v : Int)
  | d_uint16 (v : Int)
  | d_uint8 (v : Int)
  | d_uint (v : Int)
  | d_int (v : Int)
  | d_bool (b : Bool)
  | d_string (s : String)
  | d_other (rendered : String)
deriving DecidableEq

/-- The three storage variants a normalized value can take (the spec's
NormalizedValue; in the source this is the dynamic type of the interface
value returned by convert). -/
inductive NormalizedValue where
  | Double (q : ℚ)
  | Text (s : String)
  | Boolean (b : Bool)
deriving DecidableEq

/-- Result of convert: the (num, err) pair of the source collapsed into a
sum, since exactly one of the two is meaningful. -/
inductive ConvResult where
  | ok (v : NormalizedValue)
  | err (msg : String)
deriving DecidableEq

/-- ErrInvalidDataType's message with the %v argument rendered. -/
def errInvalidDataTypeMsg (rendered : String) : String :=
  "Invalid data type value found - " ++ rendered

/-- The value normalizer (client.go, convert): integer and float payloads
widen to float64 (floats exactly — every float32 is a float64 — integers by
binary64 rounding), bool and string pass through, everything else yields
ErrInvalidDataType. -/
def convert : GoData → ConvResult
  | .d_float64 q => .ok (.Double q)
  | .d_float32 q => .ok (.Double q)
  | .d_int16 v => .ok (.Double (goIntToF64 v))
  | .d_int32 v => .ok (.Double (goIntToF64 v))
  | .d_int64 v => .ok (.Double (goIntToF64 v))
  | .d_int8 v => .ok (.Double (goIntToF64 v))
  | .d_uint64 v => .ok (.Double (goIntToF64 v))
  | .d_uint32 v => .ok (.Double (goIntToF64 v))
  | .d_uint16 v => .ok (.Double (goIntToF64 v))
  | .d_uint8 v => .ok (.Double (goIntToF64 v))
  | .d_uint v => .ok (.Double (goIntToF64 v))
  | .d_int v => .ok (.Double (goIntToF64 v))
  | .d_bool b => .ok (.Boolean b)
  | .d_string s => .ok (.Text s)
  | .d_other rendered => .err (errInvalidDataTypeMsg rendered)

/-! ## Go string helpers used by getValidTagIndex (strings.Split, strings.TrimSpace) -/

/-- ASCII whitespace recognised by strings.TrimSpace (the Unicode-only
space code points are irrelevant to the configuration strings at hand). -/
def isGoSpace (c : Char) : Bool :=
  c = ' ' || c = '\t' || c = '\n' || c = '\r' || c = '\x0b' || c = '\x0c'

/-- Split a character list around each comma (accumulator carries the
current field reversed).  Mirrors strings.Split(s, ",") on the rune level:
the result always has one more field than the number of commas, so the
empty string splits to [""]. -/
def splitCommaChars : List Char → List Char → List (List Char)
  | [], cur => [cur.reverse]
  | c :: rest, cur =>
    if c = ',' then cur.reverse :: splitCommaChars rest []
    else splitCommaChars rest (c :: cur)

/-- strings.Split(s, ","). -/
def goSplitComma (s : String) : List String :=
  (splitCommaChars s.data []).map (fun l => ⟨l⟩)

/-- strings.TrimSpace. -/
def goTrimSpace (s : String) : String :=
  ⟨((s.data.dropWhile isGoSpace).reverse.dropWhile isGoSpace).reverse⟩

/-- Go map read m[k] for a map[string]string modelled as an association
list: the zero value "" when the key is absent. -/
def tagsGet : List (String × String) → String → String
  | [], _ => ""
  | (k, v) :: rest, key => if k = key then v else tagsGet rest key

/-- Go two-valued map read: whether the key is present. -/
def tagsHas : List (String × String) → String → Bool
  | [], _ => false
  | (k, _) :: rest, key => if k = key then true else tagsHas rest key

/-! ## The tag index selector (client.go, getValidTagIndex) -/

/-- getValidTagIndex (client.go): split the configured tagIndex on commas,
trim each component, and keep those present as keys of the metric's tag
map, in order. -/
def getValidTagIndex (mtag : List (String × String)) (tagIndex : String) : List String :=
  (goSplitComma tagIndex).foldl
    (fun itags t =>
      let tt := goTrimSpace t
      if tagsHas mtag tt then itags ++ [tt] else itags) []

/-! ## Metric records and store writes -/

/-- core.STD_TAG_PLUGIN_RUNNING_ON, the tag key holding the source host. -/
def stdTagPluginRunningOn : String := "plugin_running_on"

/-- The fields of a plugin.MetricType that the write path reads: the
namespace rendered as a string, the version, the tag map and the payload.
(The observation timestamp is written as time.Now() and carries no logic,
so it is omitted.) -/
structure MetricType where
  ns : String
  ver : Int
  tags : List (String × String)
  data : GoData
deriving DecidableEq

/-- One row of the primary metrics table, as bound by the INSERT issued in
worker; exactly one of the three value columns is populated. -/
structure MetricRow where
  ns : String
  ver : Int
  host : String
  valType : String
  doubleVal : Option ℚ
  strVal : Option String
  boolVal : Option Bool
  tags : List (String × String)
deriving DecidableEq

/-- One row of the tag-index table, as bound by the INSERT issued in
tagWorker. -/
structure TagRow where
  key : String
  val : String
  ns : String
  ver : Int
  host : String
  valType : String
  doubleVal : Option ℚ
  strVal : Option String
  boolVal : Option Bool
  tags : List (String × String)
deriving DecidableEq

/-- An insert issued against the store. -/
inductive WriteReq where
  | metricIns (row : MetricRow)
  | tagIns (row : TagRow)
deriving DecidableEq

/-- Store behaviour: the outcome (none = success, some msg = query error)
of the k-th insert issued in the process, in issue order.  This stands in
for the network side of session.Query(...).Exec(). -/
abbrev Oracle := Nat → Option String

/-- Issue one insert: append it to the write log and look up its outcome. -/
def execInsert (o : Oracle) (log : List WriteReq) (req : WriteReq) :
    List WriteReq × Option String :=
  (log ++ [req], o log.length)

def metricRowDouble (m : MetricType) (q : ℚ) : MetricRow :=
  { ns := m.ns, ver := m.ver, host := tagsGet m.tags stdTagPluginRunningOn,
    valType := "doubleval", doubleVal := some q, strVal := none, boolVal := none,
    tags := m.tags }

def metricRowStr (m : MetricType) (s : String) : MetricRow :=
  { ns := m.ns, ver := m.ver, host := tagsGet m.tags stdTagPluginRunningOn,
    valType := "strval", doubleVal := none, strVal := some s, boolVal := none,
    tags := m.tags }

def metricRowBool (m : MetricType) (b : Bool) : MetricRow :=
  { ns := m.ns, ver := m.ver, host := tagsGet m.tags stdTagPluginRunningOn,
    valType := "boolval", doubleVal := none, strVal := none, boolVal := some b,
    tags := m.tags }

def tagRowDouble (m : MetricType) (q : ℚ) (v : String) : TagRow :=
  { key := v, val := tagsGet m.tags v, ns := m.ns, ver := m.ver,
    host := tagsGet m.tags stdTagPluginRunningOn, valType := "doubleval",
    doubleVal := some q, strVal := none, boolVal := none, tags := m.tags }

def tagRowStr (m : MetricType) (s : String) (v : String) : TagRow :=
  { key := v, val := tagsGet m.tags v, ns := m.ns, ver := m.ver,
    host := tagsGet m.tags stdTagPluginRunningOn, valType := "strval",
    doubleVal := none, strVal := some s, boolVal := none, tags := m.tags }

def tagRowBool (m : MetricType) (b : Bool) (v : String) : TagRow :=
  { key := v, val := tagsGet m.tags v, ns := m.ns, ver := m.ver,
    host := tagsGet m.tags stdTagPluginRunningOn, valType := "boolval",
    doubleVal := none, strVal := none, boolVal := some b, tags := m.tags }

/-! ## The row mapper (client.go, worker and tagWorker) -/

/-- worker (client.go): normalize the payload, then issue exactly one
insert into the metrics table with the value column and valtype label
selected by the normalized variant; a normalization or insert error is
returned. -/
def worker (o : Oracle) (log : List WriteReq) (m : MetricType) :
    List WriteReq × Option String :=
  match convert m.data with
  | .err e => (log, some e)
  | .ok (.Double q) => execInsert o log (.metricIns (metricRowDouble m q))
  | .ok (.Text s) => execInsert o log (.metricIns (metricRowStr m s))
  | .ok (.Boolean b) => execInsert o log (.metricIns (metricRowBool m b))

/-- The per-variant insert loop of tagWorker: one tags-table insert per
element of the tag key list, returning on the first insert error. -/
def tagInsLoop (o : Oracle) (mk : String → TagRow) :
    List WriteReq → List String → List WriteReq × Option String
  | log, [] => (log, none)
  | log, v :: rest =>
      match execInsert o log (.tagIns (mk v)) with
      | (log1, some e) => (log1, some e)
      | (log1, none) => tagInsLoop o mk log1 rest

/-- tagWorker (client.go): no-op on an empty tag key list; otherwise
normalize the payload and issue one tags-table insert per tag key, with
the value column and valtype label selected by the normalized variant. -/
def tagWorker (o : Oracle) (log : List WriteReq) (m : MetricType)
    (tags : List String) : List WriteReq × Option String :=
  if tags = [] then (log, none)
  else
    match convert m.data with
    | .err e => (log, some e)
    | .ok (.Double q) => tagInsLoop o (fun v => tagRowDouble m q v) log tags
    | .ok (.Text s) => tagInsLoop o (fun v => tagRowStr m s v) log tags
    | .ok (.Boolean b) => tagInsLoop o (fun v => tagRowBool m b v) log tags

/-! ## The batch loop (client.go, saveMetrics) -/

/-- strings.Join(elems, ";"). -/
def joinSemicolon : List String → String
  | [] => ""
  | [s] => s
  | s :: rest => s ++ ";" ++ joinSemicolon rest

/-- The body of saveMetrics' range loop: for each metric run worker, then
getValidTagIndex and tagWorker, appending each non-nil error message. -/
def saveMetricsLoop (o : Oracle) (tagsIndex : String) :
    List WriteReq → List String → List MetricType → List WriteReq × List String
  | log, errs, [] => (log, errs)
  | log, errs, m :: rest =>
      saveMetricsLoop o tagsIndex
        (tagWorker o (worker o log m).1 m (getValidTagIndex m.tags tagsIndex)).1
        (errs ++ (worker o log m).2.toList ++
          (tagWorker o (worker o log m).1 m (getValidTagIndex m.tags tagsIndex)).2.toList)
        rest

/-- saveMetrics (client.go): run the loop over the batch and return nil
when no error was collected, otherwise the messages joined with ";". -/
def saveMetrics (o : Oracle) (log : List WriteReq) (tagsIndex : String)
    (mts : List MetricType) : List WriteReq × Option String :=
  (saveMetricsLoop o tagsIndex log [] mts).1
    |> fun fin => (fin,
      if (saveMetricsLoop o tagsIndex log [] mts).2 = [] then none
      else some (joinSemicolon (saveMetricsLoop o tagsIndex log [] mts).2))

/-- One metric's contribution to the batch: the writes it issues and the
errors it records (combinator over worker and tagWorker, used to state the
continuation behaviour of the loop). -/
def metricStep (o : Oracle) (tagsIndex : String) (log : List WriteReq)
    (m : MetricType) : List WriteReq × List String :=
  ((tagWorker o (worker o log m).1 m (getValidTagIndex m.tags tagsIndex)).1,
    (worker o log m).2.toList ++
      (tagWorker o (worker o log m).1 m (getValidTagIndex m.tags tagsIndex)).2.toList)

/-! ## The connection/session manager (client.go) -/

/-- sslOptions (client.go). -/
structure sslOptions where
  username : String
  password : String
  keyPath : String
  certPath : String
  caPath : String
  enableServerCertVerification : Bool
deriving DecidableEq

/-- clientOptions (client.go / cassandra.go revision 3). -/
structure clientOptions where
  server : String
  timeout : Int
  ssl : Option sslOptions
deriving DecidableEq

/-- The gocql.SslOptions actually attached to the cluster: each
certificate path is set only when non-empty. -/
structure GocqlSslOptions where
  enableHostVerification : Bool
  certPath : Option String
  caPath : Option String
  keyPath : Option String
deriving DecidableEq

/-- The gocql.ClusterConfig fields the source sets. -/
structure ClusterConfig where
  server : String
  consistency : String
  protoVersion : Nat
  authenticator : Option (String × String)
  sslOpts : Option GocqlSslOptions
deriving DecidableEq

/-- createCluster (client.go): consistency "one", protocol version 4. -/
def createCluster (server : String) : ClusterConfig :=
  { server := server, consistency := "one", protoVersion := 4,
    authenticator := none, sslOpts := none }

/-- addSslOptions (client.go): attach a password authenticator only when
both username and password are non-empty; set each certificate path only
when non-empty (empty paths are silently omitted). -/
def addSslOptions (cluster : ClusterConfig) (options : sslOptions) : ClusterConfig :=
  let cluster1 :=
    if options.username ≠ "" ∧ options.password ≠ "" then
      { cluster with authenticator := some (options.username, options.password) }
    else cluster
  let sslOpts : GocqlSslOptions :=
    { enableHostVerification := options.enableServerCertVerification,
      certPath := if options.certPath ≠ "" then some options.certPath else none,
      caPath := if options.caPath ≠ "" then some options.caPath else none,
      keyPath := if options.keyPath ≠ "" then some options.keyPath else none }
  { cluster1 with sslOpts := some sslOpts }

/-- The long-lived gocql session, identified by the cluster configuration
it was created from. -/
structure Session where
  cluster : ClusterConfig
deriving DecidableEq

/-- getSession (client.go): build the cluster descriptor, decorate it with
ssl options when given.  The connection and schema provisioning performed
by initializeSession are effects, accounted in getInstance's state
update. -/
def getSession (co : clientOptions) : Session :=
  let cluster := createCluster co.server
  let cluster2 := match co.ssl with
    | some o => addSslOptions cluster o
    | none => cluster
  { cluster := cluster2 }

/-- The process-global mutable state: the once-guarded session singleton
(var instance / sync.Once), counters for connections opened and schema
provisioning sequences run by initializeSession, the log of inserts issued,
the store oracle, and whether session.Close has been called. -/
structure GlobalState where
  sessionSingleton : Option Session
  connectionsOpened : Nat
  schemaProvisions : Nat
  writeLog : List WriteReq
  oracle : Oracle
  sessionClosed : Bool

/-- getInstance (client.go): the sync.Once-guarded session singleton.  The
first call creates the session (opening one connection and running one
schema-provisioning sequence); every later call returns the cached session
untouched, whatever options it is given. -/
def getInstance (g : GlobalState) (co : clientOptions) : GlobalState × Session :=
  match g.sessionSingleton with
  | some s => (g, s)
  | none =>
      ({ g with sessionSingleton := some (getSession co),
                connectionsOpened := g.connectionsOpened + 1,
                schemaProvisions := g.schemaProvisions + 1 }, getSession co)

/-- cassaClient (client.go). -/
structure cassaClient where
  session : Session
  tagsIndex : String
deriving DecidableEq

/-- NewCassaClient (client.go). -/
def NewCassaClient (g : GlobalState) (co : clientOptions) (tagIndex : String) :
    GlobalState × cassaClient :=
  ((getInstance g co).1, { session := (getInstance g co).2, tagsIndex := tagIndex })

/-! ## Configuration access (cassandra.go) -/

/-- ctypes.ConfigValue. -/
inductive ConfigValue where
  | str (s : String)
  | int (i : Int)
  | bool (b : Bool)
deriving DecidableEq

abbrev Config := List (String × ConfigValue)

def cfgLookup : Config → String → Option ConfigValue
  | [], _ => none
  | (k, v) :: rest, key => if k = key then some v else cfgLookup rest key

/-- A Go interface value as handled by getValueForKey. -/
inductive GoIface where
  | vstr (s : String)
  | vint (i : Int)
  | vbool (b : Bool)
  | vnil
deriving DecidableEq

/-- getValueForKey (cassandra.go): read cfg[key] and switch on its declared
type.  A missing key yields the nil interface (on which the source's
configElem.Type() call would fault; the theorems below only instantiate
configurations that carry the keys they read). -/
def getValueForKey (cfg : Config) (key : String) : GoIface :=
  match cfgLookup cfg key with
  | some (.str s) => .vstr s
  | some (.int i) => .vint i
  | some (.bool b) => .vbool b
  | none => .vnil

/-- Go type assertion value.(string) under checkAssertion: a failed
assertion is only logged and the zero value is used. -/
def asString : GoIface → String
  | .vstr s => s
  | _ => ""

/-- Go type assertion value.(int) under checkAssertion. -/
def asInt : GoIface → Int
  | .vint i => i
  | _ => 0

/-- Go type assertion value.(bool) under checkAssertion. -/
def asBool : GoIface → Bool
  | .vbool b => b
  | _ => false

def serverAddrRuleKey : String := "server"

def sslOptionsRuleKey : String := "ssl"

def usernameRuleKey : String := "username"

def passwordRuleKey : String := "password"

def keyPathRuleKey : String := "keyPath"

def certPathRuleKey : String := "certPath"

def caPathRuleKey : String := "caPath"

def enableServerCertVerRuleKey : String := "serverCertVerification"

def timeoutRuleKey : String := "timeout"

def tagIndexRuleKey : String := "tagIndex"

/-- getSslOptions (cassandra.go, revision 3, the primary document): extract
the six ssl sub-options; no validation is performed on the paths. -/
def getSslOptions (cfg : Config) : sslOptions :=
  { username := asString (getValueForKey cfg usernameRuleKey),
    password := asString (getValueForKey cfg passwordRuleKey),
    keyPath := asString (getValueForKey cfg keyPathRuleKey),
    certPath := asString (getValueForKey cfg certPathRuleKey),
    caPath := asString (getValueForKey cfg caPathRuleKey),
    enableServerCertVerification := asBool (getValueForKey cfg enableServerCertVerRuleKey) }

/-- The error message of the revision-2 ssl validation, with the key names
formatted in. -/
def sslMissingPathsMsg : String :=
  "While using ssl, keyPath, certPath and caPath have to be specified in the plugin config"

/-- getSslOptions of the superseded revision-2 publisher (the older
cassandra.go document in the bundle): the same extraction followed by a
check that keyPath, certPath and caPath are all non-empty, returning a
configuration error otherwise. -/
def getSslOptionsV2 (cfg : Config) : sslOptions × Option String :=
  let options : sslOptions :=
    { username := asString (getValueForKey cfg usernameRuleKey),
      password := asString (getValueForKey cfg passwordRuleKey),
      keyPath := asString (getValueForKey cfg keyPathRuleKey),
      certPath := asString (getValueForKey cfg certPathRuleKey),
      caPath := asString (getValueForKey cfg caPathRuleKey),
      enableServerCertVerification := asBool (getValueForKey cfg enableServerCertVerRuleKey) }
  if options.keyPath = "" ∨ options.certPath = "" ∨ options.caPath = "" then
    (options, some sslMissingPathsMsg)
  else (options, none)

/-! ## The publish orchestrator (cassandra.go, revision 3) -/

/-- plugin.SnapGOBContentType. -/
def snapGOBContentType : String := "snap.gob"

/-- The incoming payload, abstracted past the gob wire format: either it
decodes to a batch of metric records or the decoder fails with a
message. -/
inductive PublishContent where
  | gobMetrics (mts : List MetricType)
  | gobCorrupt (msg : String)

/-- The error returned for an undeclared content type (the source formats
the type into the message). -/
def unknownContentTypeMsg (contentType : String) : String :=
  "Unknown content type " ++ contentType

/-- Publish (cassandra.go, revision 3): decode the batch (unknown content
type or a decode failure returns immediately), lazily initialize the
client from configuration on first need, then run saveMetrics over the
batch.  Returns the updated global state, the publisher's client field and
the returned error. -/
def Publish (g : GlobalState) (client : Option cassaClient) (contentType : String)
    (content : PublishContent) (cfg : Config) :
    GlobalState × Option cassaClient × Option String :=
  if contentType = snapGOBContentType then
    match content with
    | .gobCorrupt msg => (g, client, some msg)
    | .gobMetrics mts =>
        let r :=
          match client with
          | some c => (g, c)
          | none =>
              NewCassaClient g
                { server := asString (getValueForKey cfg serverAddrRuleKey),
                  timeout := asInt (getValueForKey cfg timeoutRuleKey),
                  ssl := if asBool (getValueForKey cfg sslOptionsRuleKey) then
                           some (getSslOptions cfg)
                         else none }
                (asString (getValueForKey cfg tagIndexRuleKey))
        let w := saveMetrics r.1.oracle r.1.writeLog r.2.tagsIndex mts
        ({ r.1 with writeLog := w.1 }, some r.2, w.2)
  else (g, client, some (unknownContentTypeMsg contentType))

/-- The effect of session.Close on the process state. -/
def sessionCloseEffect (g : GlobalState) : GlobalState :=
  { g with sessionClosed := true }

/-- Close (cassandra.go, revision 3): close the client session only when a
client was initialized.  The Option result distinguishes a faulting call
(none) from a completing one (some final state); the nil check makes this
Close total. -/
def Close (client : Option cassaClient) (g : GlobalState) : Option GlobalState :=
  match client with
  | some _ => some (sessionCloseEffect g)
  | none => some g

/-! ## Concrete instances used by witnesses and counterexamples -/

/-- A store in which every insert succeeds. -/
def okOracle : Oracle := fun _ => none

/-- A store in which the first insert of the process fails with "boom" and
every later one succeeds. -/
def boomFirstOracle : Oracle := fun k => if k = 0 then some "boom" else none

/-- The process state at startup. -/
def g0 : GlobalState :=
  { sessionSingleton := none, connectionsOpened := 0, schemaProvisions := 0,
    writeLog := [], oracle := okOracle, sessionClosed := false }

def coEx : clientOptions := { server := "127.0.0.1", timeout := 0, ssl := none }

def coEx2 : clientOptions := { server := "10.0.0.7", timeout := 5, ssl := none }

def mEx1 : MetricType :=
  { ns := "/intel/psutil/load/load1", ver := 3,
    tags := [(stdTagPluginRunningOn, "host1")], data := .d_float64 1 }

def mEx2 : MetricType :=
  { ns := "/intel/psutil/load/load5", ver := 3,
    tags := [(stdTagPluginRunningOn, "host1")], data := .d_float64 2 }

def mBoolEx : MetricType :=
  { ns := "/intel/foo", ver := 3, tags := [(stdTagPluginRunningOn, "host1")],
    data := .d_bool true }

def mBadEx : MetricType :=
  { ns := "/invalid/data/type", ver := 3,
    tags := [(stdTagPluginRunningOn, "host1"), ("experimentId", "101")],
    data := .d_other "map[foo:bar]" }

def cfgSslEmptyPaths : Config :=
  [(serverAddrRuleKey, .str "127.0.0.1"), (sslOptionsRuleKey, .bool true),
   (usernameRuleKey, .str "user"), (passwordRuleKey, .str "pass"),
   (keyPathRuleKey, .str ""), (certPathRuleKey, .str ""), (caPathRuleKey, .str ""),
   (enableServerCertVerRuleKey, .bool false),
   (timeoutRuleKey, .int 0), (tagIndexRuleKey, .str "")]

/-! ## Helper lemmas -/

theorem log2fuel_bounds : ∀ f n, 1 ≤ n → n ≤ f →
    2 ^ log2fuel f n ≤ n ∧ n < 2 ^ (log2fuel f n + 1) := by
  intro f
  induction f with
  | zero => intro n h1 h2; omega
  | succ f ih =>
    intro n h1 h2
    by_cases hle : n ≤ 1
    · have hn : n = 1 := by omega
      subst hn
      simp [log2fuel]
    · have h2' : 2 ≤ n := by omega
      have hd1 : 1 ≤ n / 2 := by omega
      have hd2 : n / 2 ≤ f := by omega
      obtain ⟨ihl, ihr⟩ := ih (n / 2) hd1 hd2
      have hstep : log2fuel (f + 1) n = log2fuel f (n / 2) + 1 := by
        simp [log2fuel, hle]
      rw [hstep]
      constructor
      · calc 2 ^ (log2fuel f (n / 2) + 1) = 2 ^ log2fuel f (n / 2) * 2 := by
              rw [pow_succ]
          _ ≤ (n / 2) * 2 := by omega
          _ ≤ n := by omega
      · have hr : n / 2 + 1 ≤ 2 ^ (log2fuel f (n / 2) + 1) := ihr
        have hp : 2 ^ (log2fuel f (n / 2) + 1 + 1) = 2 ^ (log2fuel f (n / 2) + 1) * 2 := by
          rw [pow_succ]
        omega

theorem floorLog2_bounds (n : Nat) (h : 1 ≤ n) :
    2 ^ floorLog2 n ≤ n ∧ n < 2 ^ (floorLog2 n + 1) :=
  log2fuel_bounds n n h (Nat.le_refl n)

theorem roundNatToF64_exact (n : Nat) (h : n ≤ 2 ^ 53) : roundNatToF64 n = n := by
  by_cases h0 : n = 0
  · subst h0; rfl
  · have h1 : 1 ≤ n := by omega
    obtain ⟨hl, _⟩ := floorLog2_bounds n h1
    by_cases hk : floorLog2 n ≤ 52
    · simp [roundNatToF64, hk]
    · have hk53 : 53 ≤ floorLog2 n := by omega
      have hge : 2 ^ 53 ≤ 2 ^ floorLog2 n := Nat.pow_le_pow_right (by norm_num) hk53
      have hn53 : n = 2 ^ 53 := by omega
      subst hn53
      decide

theorem goIntToF64_exact (v : Int) (h : v.natAbs ≤ 2 ^ 53) : goIntToF64 v = (v : ℚ) := by
  unfold goIntToF64 roundIntToF64
  by_cases hv : v < 0
  · simp only [hv, if_pos]
    rw [roundNatToF64_exact v.natAbs h]
    have habs : ((v.natAbs : Int) : ℚ) = ((-v : Int) : ℚ) := by
      congr 1
      omega
    push_cast at habs ⊢
    rw [habs]
    ring
  · simp only [hv, if_neg, if_false]
    rw [roundNatToF64_exact v.natAbs h]
    have habs : (v.natAbs : Int) = v := by omega
    rw [habs]

theorem getValidTagIndex_foldl (mtag : List (String × String)) :
    ∀ (l : List String) (acc : List String),
      l.foldl (fun itags t =>
        let tt := goTrimSpace t
        if tagsHas mtag tt then itags ++ [tt] else itags) acc
      = acc ++ (l.map goTrimSpace).filter (fun k => tagsHas mtag k) := by
  intro l
  induction l with
  | nil => intro acc; simp
  | cons t rest ih =>
    intro acc
    by_cases h : tagsHas mtag (goTrimSpace t)
    · simp [List.foldl, h, ih, List.filter]
    · simp only [Bool.not_eq_true] at h
      simp [List.foldl, h, ih, List.filter]

theorem getValidTagIndex_eq_filter (mtag : List (String × String)) (tagIndex : String) :
    getValidTagIndex mtag tagIndex
      = ((goSplitComma tagIndex).map goTrimSpace).filter (fun k => tagsHas mtag k) := by
  unfold getValidTagIndex
  rw [getValidTagIndex_foldl]
  simp

/-! ## Claim C1: the value normalizer -/

/-- C1 (amended): convert maps every integer payload to the Double variant
holding the binary64 rounding of its value — which is the value itself
whenever its magnitude is at most 2 ^ 53 — maps every float payload to the
Double variant with the identical value, passes booleans and strings
through unchanged, and rejects every other shape with the InvalidDataType
error. -/
theorem c1_convert_widening (d : GoData) :
    match d with
    | .d_float64 q => convert d = .ok (.Double q)
    | .d_float32 q => convert d = .ok (.Double q)
    | .d_int16 v => convert d = .ok (.Double (goIntToF64 v)) ∧
        (v.natAbs ≤ 2 ^ 53 → goIntToF64 v = (v : ℚ))
    | .d_int32 v => convert d = .ok (.Double (goIntToF64 v)) ∧
        (v.natAbs ≤ 2 ^ 53 → goIntToF64 v = (v : ℚ))
    | .d_int64 v => convert d = .ok (.Double (goIntToF64 v)) ∧
        (v.natAbs ≤ 2 ^ 53 → goIntToF64 v = (v : ℚ))
    | .d_int8 v => convert d = .ok (.Double (goIntToF64 v)) ∧
        (v.natAbs ≤ 2 ^ 53 → goIntToF64 v = (v : ℚ))
    | .d_uint64 v => convert d = .ok (.Double (goIntToF64 v)) ∧
        (v.natAbs ≤ 2 ^ 53 → goIntToF64 v = (v : ℚ))
    | .d_uint32 v => convert d = .ok (.Double (goIntToF64 v)) ∧
        (v.natAbs ≤ 2 ^ 53 → goIntToF64 v = (v : ℚ))
    | .d_uint16 v => convert d = .ok (.Double (goIntToF64 v)) ∧
        (v.natAbs ≤ 2 ^ 53 → goIntToF64 v = (v : ℚ))
    | .d_uint8 v => convert d = .ok (.Double (goIntToF64 v)) ∧
        (v.natAbs ≤ 2 ^ 53 → goIntToF64 v = (v : ℚ))
    | .d_uint v => convert d = .ok (.Double (goIntToF64 v)) ∧
        (v.natAbs ≤ 2 ^ 53 → goIntToF64 v = (v : ℚ))
    | .d_int v => convert d = .ok (.Double (goIntToF64 v)) ∧
        (v.natAbs ≤ 2 ^ 53 → goIntToF64 v = (v : ℚ))
    | .d_bool b => convert d = .ok (.Boolean b)
    | .d_string s => convert d = .ok (.Text s)
    | .d_other r => convert d = .err (errInvalidDataTypeMsg r) := by
  cases d <;>
    first
      | rfl
      | exact ⟨rfl, fun h => goIntToF64_exact _ h⟩

/-- Witness for C1 at a 32-bit-range input: the widening is exact. -/
theorem c1_witness :
    (103 : Int).natAbs ≤ 2 ^ 53 ∧
    convert (GoData.d_int 103) = .ok (.Double (goIntToF64 103)) ∧
    goIntToF64 103 = ((103 : Int) : ℚ) :=
  ⟨by decide, (c1_convert_widening (GoData.d_int 103)).1,
    (c1_convert_widening (GoData.d_int 103)).2 (by decide)⟩

/-- Counterexample to C1 as stated: the int64 input 2 ^ 63 - 1 is widened
to the float64 value 2 ^ 63, which is not mathematically equivalent to
it — Go's float64(v) rounds integers above 2 ^ 53. -/
theorem c1_counterexample_int64 :
    convert (GoData.d_int64 9223372036854775807) =
      .ok (.Double ((9223372036854775808 : Int) : ℚ)) ∧
    ((9223372036854775808 : Int) : ℚ) ≠ ((9223372036854775807 : Int) : ℚ) := by
  constructor
  · decide
  · decide

/-! ## Claim C2: the row mapper -/

/-- C2: for every metric whose value normalizes, worker issues exactly one
primary-table insert; the populated value column and the valtype label are
selected by the normalized variant (Double goes to doubleVal under label
"doubleval", Text to strVal under "strval", Boolean to boolVal under
"boolval"), and the insert's outcome is whatever the store returns. -/
theorem c2_worker_one_write (o : Oracle) (log : List WriteReq) (m : MetricType)
    (v : NormalizedValue) (h : convert m.data = .ok v) :
    ∃ row : MetricRow,
      (worker o log m).1 = log ++ [WriteReq.metricIns row] ∧
      (worker o log m).2 = o log.length ∧
      row.ns = m.ns ∧ row.ver = m.ver ∧ row.tags = m.tags ∧
      (match v with
       | .Double q => row.valType = "doubleval" ∧ row.doubleVal = some q ∧
           row.strVal = none ∧ row.boolVal = none
       | .Text s => row.valType = "strval" ∧ row.strVal = some s ∧
           row.doubleVal = none ∧ row.boolVal = none
       | .Boolean b => row.valType = "boolval" ∧ row.boolVal = some b ∧
           row.doubleVal = none ∧ row.strVal = none) := by
  cases v with
  | Double q =>
      exact ⟨metricRowDouble m q,
        by simp [worker, h, execInsert], by simp [worker, h, execInsert],
        rfl, rfl, rfl, rfl, rfl, rfl, rfl⟩
  | Text s =>
      exact ⟨metricRowStr m s,
        by simp [worker, h, execInsert], by simp [worker, h, execInsert],
        rfl, rfl, rfl, rfl, rfl, rfl, rfl⟩
  | Boolean b =>
      exact ⟨metricRowBool m b,
        by simp [worker, h, execInsert], by simp [worker, h, execInsert],
        rfl, rfl, rfl, rfl, rfl, rfl, rfl⟩

/-- Witness for C2 at a boolean-valued metric. -/
theorem c2_witness :
    convert mBoolEx.data = .ok (.Boolean true) ∧
    ∃ row : MetricRow,
      (worker okOracle [] mBoolEx).1 = [] ++ [WriteReq.metricIns row] ∧
      (worker okOracle [] mBoolEx).2 = okOracle 0 ∧
      row.ns = mBoolEx.ns ∧ row.ver = mBoolEx.ver ∧ row.tags = mBoolEx.tags ∧
      (row.valType = "boolval" ∧ row.boolVal = some true ∧
        row.doubleVal = none ∧ row.strVal = none) :=
  ⟨by decide,
    c2_worker_one_write okOracle [] mBoolEx (.Boolean true) (by decide)⟩

/-! ## Claim C3: the tag index selector -/

/-- C3 (amended): getValidTagIndex is the pure function keeping, in the
order of the comma-separated spec, every trimmed spec component present as
a key of the tag map — components, not distinct keys, so the empty spec
contributes the single empty component; hence on spec "a, b" and tag map
a:1, c:2 it returns exactly ["a"], and on the empty spec it returns the
empty sequence whenever the tag map does not contain the empty-string
key. -/
theorem c3_tag_index_selector (mtag : List (String × String)) (spec : String) :
    getValidTagIndex mtag spec
      = ((goSplitComma spec).map goTrimSpace).filter (fun k => tagsHas mtag k) ∧
    getValidTagIndex [("a", "1"), ("c", "2")] "a, b" = ["a"] ∧
    (tagsHas mtag "" = false → getValidTagIndex mtag "" = []) := by
  refine ⟨getValidTagIndex_eq_filter mtag spec, by decide, fun h => ?_⟩
  rw [getValidTagIndex_eq_filter]
  have hsplit : (goSplitComma "").map goTrimSpace = [""] := by decide
  rw [hsplit]
  simp [List.filter, h]

/-- Witness for C3: a tag map without the empty key yields the empty
selection for the empty spec. -/
theorem c3_witness :
    tagsHas [("a", "1")] "" = false ∧ getValidTagIndex [("a", "1")] "" = [] :=
  ⟨by decide, (c3_tag_index_selector [("a", "1")] "x").2.2 (by decide)⟩

/-- Counterexample to C3 as stated: on the empty spec and a tag map that
contains the empty-string key, getValidTagIndex returns [""], not the
empty sequence — strings.Split("", ",") yields one empty component. -/
theorem c3_counterexample_empty_spec :
    getValidTagIndex [("", "x")] "" = [""] ∧ ([""] : List String) ≠ [] := by
  exact ⟨by decide, by decide⟩

/-! ## Claim C9: no deduplication of indexed tag keys -/

theorem tagInsLoop_ok (mk : String → TagRow) :
    ∀ (ts : List String) (log : List WriteReq),
      tagInsLoop okOracle mk log ts
        = (log ++ ts.map (fun v => WriteReq.tagIns (mk v)), none) := by
  intro ts
  induction ts with
  | nil => intro log; simp [tagInsLoop]
  | cons v rest ih =>
      intro log
      simp [tagInsLoop, execInsert, okOracle, ih]

/-- C9: getValidTagIndex keeps one occurrence of a present key per spec
component naming it (no deduplication; the count of a present key in the
result equals its count among the trimmed spec components, and "a,a"
against a map with key a selects it twice), and tagWorker issues one
tags-table write per element of the resulting list — hence one write per
occurrence, with the same key/value pair. -/
theorem c9_no_dedup (mtag : List (String × String)) (spec k : String)
    (hk : tagsHas mtag k = true) :
    (getValidTagIndex mtag spec).count k
        = (((goSplitComma spec).map goTrimSpace).count k) ∧
    getValidTagIndex [("a", "1")] "a,a" = ["a", "a"] ∧
    (∀ (log : List WriteReq) (m : MetricType) (q : ℚ) (ts : List String),
      convert m.data = .ok (.Double q) →
      tagWorker okOracle log m ts
        = (log ++ ts.map (fun v => WriteReq.tagIns (tagRowDouble m q v)), none)) := by
  refine ⟨?_, by decide, ?_⟩
  · rw [getValidTagIndex_eq_filter]
    exact List.count_filter hk
  · intro log m q ts h
    by_cases hts : ts = []
    · subst hts; simp [tagWorker]
    · simp [tagWorker, hts, h, tagInsLoop_ok]

/-- Witness for C9: the duplicated spec "a,a" selects key a twice and
tagWorker issues two identical-keyed writes for it. -/
theorem c9_witness :
    tagsHas [("a", "1")] "a" = true ∧
    (getValidTagIndex [("a", "1")] "a,a").count "a"
      = (((goSplitComma "a,a").map goTrimSpace).count "a") ∧
    convert mEx1.data = .ok (.Double 1) ∧
    tagWorker okOracle [] mEx1 ["a", "a"]
      = ([WriteReq.tagIns (tagRowDouble mEx1 1 "a"),
          WriteReq.tagIns (tagRowDouble mEx1 1 "a")], none) := by
  refine ⟨by decide, (c9_no_dedup [("a", "1")] "a,a" "a" (by decide)).1, by decide, ?_⟩
  have h := (c9_no_dedup [("a", "1")] "a,a" "a" (by decide)).2.2
    [] mEx1 1 ["a", "a"] (by decide)
  simpa using h

/-! ## Claim C4: per-record error accumulation -/

theorem saveMetricsLoop_errs_append (o : Oracle) (tagsIndex : String) :
    ∀ (mts : List MetricType) (log : List WriteReq) (errs : List String),
      (saveMetricsLoop o tagsIndex log errs mts).2
        = errs ++ (saveMetricsLoop o tagsIndex log [] mts).2 := by
  intro mts
  induction mts with
  | nil => intro log errs; simp [saveMetricsLoop]
  | cons m rest ih =>
      intro log errs
      simp only [saveMetricsLoop]
      rw [ih, ih _ ([] ++ (worker o log m).2.toList ++ _)]
      simp

/-- C4: the batch loop attempts every metric in input order — a failing
record only contributes its error messages and processing continues with
the untouched remainder —, the collected error list is position-ordered
(whatever was collected so far is a prefix of the final list), and
saveMetrics returns nil when no error was collected and the messages
joined with ";" otherwise; concretely, a store failure on the first
metric's insert still leaves the second metric's insert issued, and is
returned as the batch error. -/
theorem c4_saveMetrics_accumulates :
    (∀ (o : Oracle) (tagsIndex : String) (log : List WriteReq)
        (errs : List String) (m : MetricType) (rest : List MetricType),
      saveMetricsLoop o tagsIndex log errs (m :: rest)
        = saveMetricsLoop o tagsIndex (metricStep o tagsIndex log m).1
            (errs ++ (metricStep o tagsIndex log m).2) rest) ∧
    (∀ (o : Oracle) (tagsIndex : String) (log : List WriteReq)
        (errs : List String) (mts : List MetricType),
      (saveMetricsLoop o tagsIndex log errs mts).2
        = errs ++ (saveMetricsLoop o tagsIndex log [] mts).2) ∧
    (∀ (o : Oracle) (log : List WriteReq) (tagsIndex : String)
        (mts : List MetricType),
      (saveMetrics o log tagsIndex mts).2
        = if (saveMetricsLoop o tagsIndex log [] mts).2 = [] then none
          else some (joinSemicolon (saveMetricsLoop o tagsIndex log [] mts).2)) ∧
    ((saveMetrics boomFirstOracle [] "" [mEx1, mEx2]).1
        = [WriteReq.metricIns (metricRowDouble mEx1 1),
           WriteReq.metricIns (metricRowDouble mEx2 2)] ∧
     (saveMetrics boomFirstOracle [] "" [mEx1, mEx2]).2 = some "boom") := by
  refine ⟨?_, fun o tagsIndex log errs mts =>
      saveMetricsLoop_errs_append o tagsIndex mts log errs, ?_, by decide, by decide⟩
  · intro o tagsIndex log errs m rest
    simp [saveMetricsLoop, metricStep]
  · intro o log tagsIndex mts
    simp [saveMetrics]

/-! ## Claim C10: a normalization failure is recorded twice when tag keys
are eligible -/

/-- C10: when a metric's value fails normalization, worker returns the
InvalidDataType message without writing, and tagWorker returns the same
message again exactly when the selected tag key list is non-empty; so the
batch loop records the message twice for such a metric (once when no key
is eligible), and for a single-metric batch the joined error contains it
twice, ";"-separated. -/
theorem c10_invalid_recorded_twice (o : Oracle) (tagsIndex : String)
    (log : List WriteReq) (errs : List String) (m : MetricType)
    (rest : List MetricType) (e : String) (h : convert m.data = .err e) :
    worker o log m = (log, some e) ∧
    (getValidTagIndex m.tags tagsIndex ≠ [] →
      tagWorker o log m (getValidTagIndex m.tags tagsIndex) = (log, some e)) ∧
    (getValidTagIndex m.tags tagsIndex = [] →
      tagWorker o log m (getValidTagIndex m.tags tagsIndex) = (log, none)) ∧
    (getValidTagIndex m.tags tagsIndex ≠ [] →
      saveMetricsLoop o tagsIndex log errs (m :: rest)
        = saveMetricsLoop o tagsIndex log (errs ++ [e, e]) rest) ∧
    (getValidTagIndex m.tags tagsIndex = [] →
      saveMetricsLoop o tagsIndex log errs (m :: rest)
        = saveMetricsLoop o tagsIndex log (errs ++ [e]) rest) ∧
    (getValidTagIndex m.tags tagsIndex ≠ [] →
      (saveMetrics o log tagsIndex [m]).2 = some (e ++ ";" ++ e)) := by
  have hw : worker o log m = (log, some e) := by simp [worker, h]
  refine ⟨hw, fun hne => ?_, fun heq => ?_, fun hne => ?_, fun heq => ?_, fun hne => ?_⟩
  · simp [tagWorker, hne, h]
  · simp [tagWorker, heq]
  · simp [saveMetricsLoop, hw, tagWorker, hne, h]
  · simp [saveMetricsLoop, hw, tagWorker, heq]
  · simp [saveMetrics, saveMetricsLoop, hw, tagWorker, hne, h, joinSemicolon]

/-- Witness for C10 at an invalid-typed metric carrying an index-eligible
tag: the combined error repeats the message. -/
theorem c10_witness :
    convert mBadEx.data = .err (errInvalidDataTypeMsg "map[foo:bar]") ∧
    getValidTagIndex mBadEx.tags "experimentId" ≠ [] ∧
    (saveMetrics okOracle [] "experimentId" [mBadEx]).2
      = some (errInvalidDataTypeMsg "map[foo:bar]" ++ ";"
          ++ errInvalidDataTypeMsg "map[foo:bar]") :=
  ⟨by decide, by decide,
    (c10_invalid_recorded_twice okOracle "experimentId" [] [] mBadEx []
      (errInvalidDataTypeMsg "map[foo:bar]") (by decide)).2.2.2.2.2 (by decide)⟩

/-! ## Claim C5: Publish short-circuits on decode problems -/

/-- C5: an undeclared content type, or a payload the gob decoder rejects,
makes Publish return an error at once with the global state (session
singleton, connection and provisioning counters, write log) and the
publisher's client field untouched — no client initialization, no store
write, no metric processed. -/
theorem c5_publish_decode_short_circuit (g : GlobalState)
    (client : Option cassaClient) (cfg : Config) :
    (∀ (contentType : String) (content : PublishContent),
      contentType ≠ snapGOBContentType →
      Publish g client contentType content cfg
        = (g, client, some (unknownContentTypeMsg contentType))) ∧
    (∀ msg : String,
      Publish g client snapGOBContentType (.gobCorrupt msg) cfg
        = (g, client, some msg)) := by
  constructor
  · intro contentType content h
    simp [Publish, h]
  · intro msg
    simp [Publish]

/-- Witness for C5 at an unknown content type. -/
theorem c5_witness :
    "text/plain" ≠ snapGOBContentType ∧
    Publish g0 none "text/plain" (.gobMetrics [mEx1]) []
      = (g0, none, some (unknownContentTypeMsg "text/plain")) :=
  ⟨by decide,
    (c5_publish_decode_short_circuit g0 none []).1 "text/plain"
      (.gobMetrics [mEx1]) (by decide)⟩

/-! ## Claim C6: the session singleton -/

/-- C6: once any call to getInstance has run, every later call — whatever
options it passes — returns the identical cached session and leaves the
global state untouched (no new connection, no new schema provisioning);
and the first call, finding no session, builds it from its own options
(first-writer-wins). -/
theorem c6_session_singleton (g : GlobalState) (co co2 : clientOptions) :
    (∀ s, g.sessionSingleton = some s → getInstance g co2 = (g, s)) ∧
    (getInstance (getInstance g co).1 co2).2 = (getInstance g co).2 ∧
    (getInstance (getInstance g co).1 co2).1 = (getInstance g co).1 ∧
    (g.sessionSingleton = none → (getInstance g co).2 = getSession co) := by
  refine ⟨fun s hs => by simp [getInstance, hs], ?_⟩
  cases hg : g.sessionSingleton with
  | some s => simp [getInstance, hg]
  | none => simp [getInstance, hg]

/-- Witness for C6: from the startup state, the second call with different
options returns the first call's session. -/
theorem c6_witness :
    g0.sessionSingleton = none ∧
    (getInstance g0 coEx).2 = getSession coEx ∧
    (getInstance (getInstance g0 coEx).1 coEx2).2 = (getInstance g0 coEx).2 ∧
    getInstance (getInstance g0 coEx).1 coEx2
      = ((getInstance g0 coEx).1, getSession coEx) :=
  ⟨rfl, (c6_session_singleton g0 coEx coEx2).2.2.2 rfl,
    (c6_session_singleton g0 coEx coEx2).2.1,
    (c6_session_singleton (getInstance g0 coEx).1 coEx coEx2).1 (getSession coEx) rfl⟩

/-! ## Claim C7: Close is guarded -/

/-- C7: Close releases the session when a client is held, and on a
publisher that never created one it completes without fault and leaves the
state unchanged, also when called repeatedly. -/
theorem c7_close_safe (g : GlobalState) (c : cassaClient) :
    Close (some c) g = some (sessionCloseEffect g) ∧
    (sessionCloseEffect g).sessionClosed = true ∧
    Close none g = some g ∧
    (Close none g).bind (Close none) = some g :=
  ⟨rfl, rfl, rfl, rfl⟩

/-! ## Claim C8: empty ssl paths are not validated -/

/-- C8 (amended): in the current publisher, a configuration with ssl
enabled and an empty keyPath, certPath or caPath yields no configuration
error at all — getSslOptions performs no validation (the superseded
revision-2 resolver getSslOptionsV2 is the one that returns the
configuration error), addSslOptions silently omits each empty path, and a
first Publish with such a configuration still proceeds to open the
connection. -/
theorem c8_ssl_not_validated (cfg : Config) (g : GlobalState)
    (mts : List MetricType)
    (hempty : asString (getValueForKey cfg keyPathRuleKey) = "" ∨
              asString (getValueForKey cfg certPathRuleKey) = "" ∨
              asString (getValueForKey cfg caPathRuleKey) = "") :
    (getSslOptionsV2 cfg).2 = some sslMissingPathsMsg ∧
    ((getSslOptions cfg).keyPath = "" →
      (addSslOptions (createCluster (asString (getValueForKey cfg serverAddrRuleKey)))
          (getSslOptions cfg)).sslOpts.map GocqlSslOptions.keyPath = some none) ∧
    (g.sessionSingleton = none →
      (Publish g none snapGOBContentType (.gobMetrics mts) cfg).1.connectionsOpened
        = g.connectionsOpened + 1) := by
  refine ⟨?_, ?_, ?_⟩
  · unfold getSslOptionsV2
    rcases hempty with h | h | h <;> simp [getSslOptions] at h ⊢ <;> simp [h]
  · intro hkey
    simp [addSslOptions, hkey]
  · intro hg
    simp [Publish, NewCassaClient, getInstance, hg, saveMetrics]

/-- Witness for C8 on a concrete ssl configuration with all three paths
empty. -/
theorem c8_witness :
    (asString (getValueForKey cfgSslEmptyPaths keyPathRuleKey) = "" ∨
      asString (getValueForKey cfgSslEmptyPaths certPathRuleKey) = "" ∨
      asString (getValueForKey cfgSslEmptyPaths caPathRuleKey) = "") ∧
    (getSslOptionsV2 cfgSslEmptyPaths).2 = some sslMissingPathsMsg ∧
    (Publish g0 none snapGOBContentType (.gobMetrics []) cfgSslEmptyPaths).1.connectionsOpened
      = g0.connectionsOpened + 1 :=
  ⟨by decide,
    (c8_ssl_not_validated cfgSslEmptyPaths g0 [] (by decide)).1,
    (c8_ssl_not_validated cfgSslEmptyPaths g0 [] (by decide)).2.2 rfl⟩

/-- Counterexample to C8 as stated: with ssl enabled and all three paths
empty, resolving the ssl options in the current publisher yields no error
(getSslOptions just returns the record), Publish returns no error for an
empty batch, and the connection is opened — no configuration error
precedes it. -/
theorem c8_counterexample_no_error :
    (getSslOptions cfgSslEmptyPaths).keyPath = "" ∧
    (Publish g0 none snapGOBContentType (.gobMetrics []) cfgSslEmptyPaths).2.2 = none ∧
    (Publish g0 none snapGOBContentType (.gobMetrics []) cfgSslEmptyPaths).1.connectionsOpened = 1 := by
  refine ⟨by decide, by decide, by decide⟩

end SnapCassandra
